import Mathlib

/-!
Verification of the metrics aggregation and tabular-flush engine of
`ml_logger` (file `ml_logger/ml_logger.py`), as a shallow embedding.

The embedding models the `ML_Logger` state (`step`, `timestamp`, `data`
as an insertion-ordered association list mirroring the `OrderedDict`,
`do_not_print_list` as a duplicate-free list mirroring the `set`, and
`print_buffer`), the two logging entry points `log` (keyword-argument
path) and `log_keyvalue`, the two table renderers `_tabular` and
`_row_table`, and the `flush` / `print_flush` pipeline.

Modelling conventions:
* The numeric format specifier is fixed to the default `".3f"`; numeric
  values are integers, so `format(n, ".3f")` renders as `toString n ++
  ".000"`.  Applying the float format token to a string raises
  `ValueError` and to a list raises `TypeError`, as in Python.
* Wall-clock time is an abstract counter: each logging call receives the
  current clock as a `Nat` and stores it as the timestamp
  (`np.datetime64(datetime.now())` in the source); `str` of it is
  `toString`.
* Console printing (`print(...)`, the colored line prefix) is a display
  side channel the source never reads back; it is not part of the model.
* The storage collaborator (`LogClient`, not under `src/`) is modelled
  at its interface boundary: a pair of flags saying whether its
  record-append and text writes succeed, and an output trace of the
  records and texts handed to it.
-/

namespace MLogger

/-! ## Values -/

/-- A value held by the metrics accumulator: a number, a text string, or
a list built by repeated-key accumulation.  (Numbers are modelled as
integers; the value types are the ones the engine's own code paths
produce and format.) -/
inductive Val where
  | num (n : Int)
  | str (s : String)
  | list (vs : List Val)

mutual
/-- Python `repr` of a value (used by `str` on the elements of a list). -/
def pyRepr : Val → String
  | .num n => toString n
  | .str s => "\x27" ++ s ++ "\x27"
  | .list vs => "[" ++ pyReprList vs ++ "]"

/-- Comma-separated `repr` of the elements of a list. -/
def pyReprList : List Val → String
  | [] => ""
  | [v] => pyRepr v
  | v :: vs => pyRepr v ++ ", " ++ pyReprList vs
end

/-- Python `str` of a value: a string is itself, everything else is its
`repr`. -/
def pyStr : Val → String
  | .str s => s
  | .num n => toString n
  | .list vs => "[" ++ pyReprList vs ++ "]"

/-- The Python exceptions the rendering paths can raise. -/
inductive PyErr where
  | valueError
  | typeError
deriving DecidableEq

/-- Python `format(v, ".3f")` (the engine's default numeric format
specifier, `fmt=".3f"`): an integer renders in fixed point with three
decimals; a string raises `ValueError` (unknown format code for
`str`); a list raises `TypeError` (unsupported format string passed to
`list`). -/
def formatFixed3 : Val → Except PyErr String
  | .num n => .ok (toString n ++ ".000")
  | .str _ => .error .valueError
  | .list _ => .error .typeError

/-- `n` copies of a character, as a string (Python `ch * n`). -/
def repChar (ch : Char) (n : Nat) : String :=
  String.mk (List.replicate n ch)

/-- Python center alignment `"{:^w}"`: pad with spaces to width `w`,
the extra space going to the right; a string at least `w` wide is
unchanged. -/
def pyCenter (s : String) (w : Nat) : String :=
  let pad := w - s.length
  repChar ' ' (pad / 2) ++ s ++ repChar ' ' (pad - pad / 2)

/-! ## Colored values (`class Color`) -/

/-- The `Color` wrapper: a value, an optional display color, and a
formatter (identity by default).  `oid` is the Python object identity,
which is what the default `==`/`!=` on `Color` instances compares. -/
structure ColorObj where
  oid : Nat
  value : Val
  color : Option String
  formatter : Val → Val

/-- Construct a `Color` with the default identity formatter. -/
def mkColor (oid : Nat) (v : Val) (c : Option String) : ColorObj :=
  ⟨oid, v, c, fun x => x⟩

/-- `Color.__len__`: `len(str(self.value))` — the length of the
un-formatted stringified underlying value (the formatter is not applied,
and no color control sequence is involved). -/
def ColorObj.pyLen (cv : ColorObj) : Nat :=
  (pyStr cv.value).length

/-- Modelled from the spec: the terminal color control sequence the
external color collaborator (`termcolor.colored`, not under `src/`)
wraps around rendered text when a non-default color tag is set. -/
def ansiWrap (code : Nat) (s : String) : String :=
  "\x1b[" ++ toString code ++ "m" ++ s ++ "\x1b[0m"

/-- `Color.__format__`: apply the formatter to the value, then the
format specifier; wrap in a color control sequence unless the color is
`None` or `"default"`.  The specifier is the fixed `".3f"` of the
engine, and color names are coarsely mapped to a single ANSI code. -/
def ColorObj.pyFormatFixed3 (cv : ColorObj) : Except PyErr String :=
  match cv.color with
  | none => formatFixed3 (cv.formatter cv.value)
  | some "default" => formatFixed3 (cv.formatter cv.value)
  | some _ => (formatFixed3 (cv.formatter cv.value)).map (ansiWrap 31)

/-! ## Steps and Python equality on them -/

/-- A step argument: `step: Union[int, Color]` in the source.  A step
may be a plain integer or a `Color` wrapper object. -/
inductive StepV where
  | int (n : Int)
  | color (c : ColorObj)

/-- Python `==` between two step values: integers compare by value; a
`Color` defines no `__eq__`, so it compares by object identity; an
integer never equals a `Color` object. -/
def pyEqStep : StepV → StepV → Bool
  | .int a, .int b => a == b
  | .color c₁, .color c₂ => c₁.oid == c₂.oid
  | _, _ => false

/-- Python `==` between optional step values (`None == None` is true,
`None` equals nothing else). -/
def pyEqOptStep : Option StepV → Option StepV → Bool
  | none, none => true
  | some a, some b => pyEqStep a b
  | _, _ => false

/-- Python `!=` on optional step values, as used by the step gate
`self.step != step`. -/
def pyNeOptStep (a b : Option StepV) : Bool :=
  !pyEqOptStep a b

/-- A value passed to a logging call: either a plain value or a `Color`
wrapper. -/
inductive LVal where
  | plain (v : Val)
  | colored (c : ColorObj)

/-- `v.value if type(v) is Color else v` — the unwrapping applied before
a value enters the accumulator. -/
def unwrapLV : LVal → Val
  | .plain v => v
  | .colored c => c.value

/-! ## Logger state -/

/-- The mutable state of `ML_Logger` that the accumulation/flush engine
reads and writes.  `data` is the `OrderedDict` (keys unique, insertion
order preserved); `do_not_print_list` is the silent-key `set`;
`pfx` is the configured path prefix; `print_buffer_size` is the
buffer byte threshold. -/
structure LoggerState where
  step : Option StepV
  timestamp : Option Nat
  data : List (String × Val)
  do_not_print_list : List String
  print_buffer : String
  pfx : String
  print_buffer_size : Nat

/-- The state right after `__init__`/`configure`: no step, no timestamp,
empty accumulator and silent set; the constructor's own `flush()` leaves
an empty print buffer. -/
def initState (pfx : String) (bufSize : Nat) : LoggerState :=
  { step := none, timestamp := none, data := [], do_not_print_list := [],
    print_buffer := "", pfx := pfx, print_buffer_size := bufSize }

/-- `os.path.join` for the relative destination keys the engine builds
(`prefix or ""` joined with a file name). -/
def pathJoin (a b : String) : String :=
  if a = "" then b else a ++ "/" ++ b

/-- Membership in the ordered mapping (`key in self.data`). -/
def odContains (d : List (String × Val)) (k : String) : Bool :=
  d.any (fun p => p.1 == k)

/-- Lookup in the ordered mapping (`self.data[key]`; keys are unique). -/
def odGet (d : List (String × Val)) (k : String) : Option Val :=
  (d.find? (fun p => p.1 == k)).map (fun p => p.2)

/-- Assignment `self.data[key] = v`: an existing key keeps its position,
a new key is appended (OrderedDict insertion order). -/
def odSet (d : List (String × Val)) (k : String) (v : Val) : List (String × Val) :=
  if odContains d k then d.map (fun p => if p.1 == k then (k, v) else p)
  else d ++ [(k, v)]

/-- Add a key to the silent-key set (`set.update`): membership-only
semantics, first insertion position kept. -/
def dnpInsert (l : List String) (k : String) : List String :=
  if l.contains k then l else l ++ [k]

/-- Add several keys to the silent-key set
(`self.do_not_print_list.update(kwargs.keys())`). -/
def dnpInsertMany (l : List String) (ks : List String) : List String :=
  ks.foldl dnpInsert l

/-- The repeated-key accumulation of `ML_Logger.log` (keyword-argument
path).  The source reads:

    if key in self.data:
        if type(self.data) is list:
            self.data[key].append(v.value if type(v) is Color else v)
        else:
            self.data[key] = [self.data[key], v.value if type(v) is Color else v]
    else:
        self.data[key] = v.value if type(v) is Color else v

`self.data` is the `OrderedDict` itself — never a `list` — so the inner
test is constantly false and the append branch is dead: a present key is
always replaced by the two-element list `[old, new]`, nesting any list
already there. -/
def logAccum (d : List (String × Val)) (k : String) (v : Val) : List (String × Val) :=
  match odGet d k with
  | some old => odSet d k (Val.list [old, v])
  | none => odSet d k v

/-- The repeated-key accumulation of `ML_Logger.log_keyvalue`; same
structure as `logAccum` with the same dead `type(self.data) is list`
branch, the live branch being
`self.data[key] = [self.data[key]] + [value...]`. -/
def logAccumKV (d : List (String × Val)) (k : String) (v : Val) : List (String × Val) :=
  match odGet d k with
  | some old => odSet d k (Val.list ([old] ++ [v]))
  | none => odSet d k v

/-! ## Renderers -/

/-- `[k for k in data.keys() if k not in do_not_print_list]` paired with
the values (keys are unique, so filtering entries and filtering keys
agree); both renderers start from this list. -/
def visibleEntries (entries : List (String × Val)) (dnp : List String) :
    List (String × Val) :=
  entries.filter (fun p => !dnp.contains p.1)

/-- The keys both renderers display (content rows of `_tabular`, header
cells of `_row_table`). -/
def visibleKeys (entries : List (String × Val)) (dnp : List String) : List String :=
  (visibleEntries entries dnp).map (fun p => p.1)

/-- `str.replace('_', ' ')` (character-wise, as in `_tabular`). -/
def underscoreToSpace (s : String) : String :=
  String.mk (s.data.map (fun ch => if ch = '_' then ' ' else ch))

/-- `str.replace('-', ' ')` (character-wise, as in `_row_table`). -/
def dashToSpace (s : String) : String :=
  String.mk (s.data.map (fun ch => if ch = '-' then ' ' else ch))

/-- The content rows of the single-row table: for each visible key in
order, the displayed key (`k.replace('_', ' ')`) and the formatted value
`f"{data[k]:.3f}"`; the first value the format specifier rejects raises
out of the loop. -/
def tabularRows (entries : List (String × Val)) (dnp : List String) :
    Except PyErr (List (String × String)) :=
  (visibleEntries entries dnp).mapM
    (fun p => (formatFixed3 p.2).map (fun s => (underscoreToSpace p.1, s)))

/-- Maximum of a minimum width and a list of lengths
(`max([min_width] + lens)`). -/
def maxWidth (minW : Nat) (lens : List Nat) : Nat :=
  lens.foldl max minW

/-- Assemble the box-drawn single-row table from its content rows and
column widths, mirroring the loop of `_tabular`: top border before the
first row, a separator before each later row, a bottom border at the
end. -/
def tabularAssemble (rows : List (String × String)) (kw vw : Nat) : String :=
  let top := "╒" ++ repChar '═' kw ++ "╤" ++ repChar '═' vw ++ "╕\n"
  let sep := "├" ++ repChar '─' kw ++ "┼" ++ repChar '─' vw ++ "┤\n"
  let bot := "╘" ++ repChar '═' kw ++ "╧" ++ repChar '═' vw ++ "╛\n"
  let line := fun (r : String × String) =>
    "│" ++ pyCenter r.1 kw ++ "│" ++ pyCenter r.2 vw ++ "│\n"
  match rows with
  | [] => top ++ bot
  | r :: rs => top ++ line r ++ String.join (rs.map (fun r => sep ++ line r)) ++ bot

/-- `ML_Logger._tabular`: the single-row key/value table.  Returns
`none` (Python `None`) when every key is silent; raises the first
formatting error.  Key column width is the maximum of 20 and the longest
visible key; value column width is the maximum of 20 and the longest
`str` of a visible value. -/
def tabularStr (entries : List (String × Val)) (dnp : List String) :
    Except PyErr (Option String) :=
  let keys := visibleKeys entries dnp
  if keys.length > 0 then
    let kw := maxWidth 20 (keys.map String.length)
    let vw := maxWidth 20 ((visibleEntries entries dnp).map (fun p => (pyStr p.2).length))
    match tabularRows entries dnp with
    | .error e => .error e
    | .ok rows => .ok (some (tabularAssemble rows kw vw))
  else .ok none

/-- `zip_longest(*values)`: one row per index up to the longest column,
shorter columns padded with `None`. -/
def zipLongest (cols : List (List Val)) : List (List (Option Val)) :=
  let n := maxWidth 0 (cols.map List.length)
  (List.range n).map (fun i => cols.map (fun col => col.get? i))

/-- One cell of a `_row_table` body row: `f"{value:^{w}.3f}"`.  A
number formats and centers; a string raises `ValueError`, a nested list
raises `TypeError`, and the `None` padding of `zip_longest` raises
`TypeError` as well. -/
def rowCell (w : Nat) : Option Val → Except PyErr String
  | some (.num n) => .ok (pyCenter (toString n ++ ".000") w)
  | some (.str _) => .error .valueError
  | some (.list _) => .error .typeError
  | none => .error .typeError

/-- `ML_Logger._row_table`: the multi-row fallback table.  The header
row holds the visible keys; the value columns come from **all** entries
(the source builds `values` from `data.values()` without the silent-key
filter); the shared column width is the maximum of 5, the longest
visible key, and the longest formatted value.  Returns `none` when every
key is silent; raises the first formatting error. -/
def rowTableStr (entries : List (String × Val)) (dnp : List String) :
    Except PyErr (Option String) :=
  let keys := visibleKeys entries dnp
  if keys.length > 0 then
    let values : List (List Val) :=
      entries.map (fun p => match p.2 with | .list vs => vs | v => [v])
    let kw := maxWidth 5 (keys.map String.length)
    match (values.flatten).mapM formatFixed3 with
    | .error e => .error e
    | .ok fs =>
      let vw := maxWidth 5 (fs.map String.length)
      let w := max kw vw
      let header := String.intercalate "|" (keys.map (fun k => pyCenter (dashToSpace k) w)) ++ "\n"
      let rule := String.intercalate "┼" (List.replicate keys.length (repChar '─' w)) ++ "\n"
      match (zipLongest values).mapM (fun row =>
          (row.mapM (rowCell w)).map (fun cells => String.intercalate "|" cells ++ "\n")) with
      | .error e => .error e
      | .ok lines => .ok (some (header ++ rule ++ String.join lines))
  else .ok none

/-- Whether a renderer result is a successfully produced table (neither
an exception nor Python `None`). -/
def isOkSome : Except PyErr (Option String) → Bool
  | .ok (some _) => true
  | _ => false

/-- The render stage of `flush`: try `_tabular`; on any exception print
it as a diagnostic (display side channel) and fall back to
`_row_table`.  An exception from the fallback itself is not caught. -/
def renderStage (entries : List (String × Val)) (dnp : List String) :
    Except PyErr (Option String) :=
  match tabularStr entries dnp with
  | .ok o => .ok o
  | .error _ => rowTableStr entries dnp

/-! ## Flush pipeline -/

/-- An error propagating out of an engine call: a Python exception from
rendering/serialization, or a storage-collaborator I/O failure. -/
inductive Err where
  | py (e : PyErr)
  | ioFail
deriving DecidableEq

/-- A value inside a serialized record: the step (which may be `None`,
an integer, or a `Color` object), a text field, or an accumulated
value. -/
inductive RVal where
  | step (s : Option StepV)
  | text (s : String)
  | val (v : Val)

/-- A record handed to the storage collaborator.  `overwrite := false`
is an appended record.  (Modelled from the spec: the collaborator
`LogClient` is not under `src/`; per §6/§4.4 its `log` call used by
`flush` appends and never overwrites prior records at the same
destination key.) -/
structure Record where
  key : String
  overwrite : Bool
  data : List (String × RVal)

/-- The trace of what a call handed to the storage collaborator:
serialized records (`logger.log`) and text writes (`logger.log_text`). -/
structure Out where
  records : List Record
  texts : List (String × String)

def Out.nil : Out := ⟨[], []⟩

def Out.app (a b : Out) : Out := ⟨a.records ++ b.records, a.texts ++ b.texts⟩

instance : Append Out := ⟨Out.app⟩

/-- The storage collaborator at its interface boundary: whether its
record-append write and its text write succeed. -/
structure Collab where
  logOk : Bool
  textOk : Bool

/-- The result of running an engine call: the state as Python leaves it
(mutations before a raise persist), the collaborator trace, and the
exception that propagated, if any. -/
structure MRes where
  st : LoggerState
  out : Out
  err : Option Err

/-- `str(self.timestamp)` (`str(None)` is `"None"`). -/
def tsStr : Option Nat → String
  | none => "None"
  | some n => toString n

/-- `ML_Logger.print_flush`: take the print buffer, clear it, and if it
was non-empty forward it as one silent text write
(`log_text(text, silent=True)`, destination `join(prefix, "text.log")`). -/
def print_flush (clt : Collab) (st : LoggerState) : MRes :=
  let text := st.print_buffer
  let st₁ := { st with print_buffer := "" }
  if text = "" then ⟨st₁, Out.nil, none⟩
  else if clt.textOk then
    ⟨st₁, ⟨[], [(pathJoin st.pfx "text.log", text)]⟩, none⟩
  else ⟨st₁, Out.nil, some .ioFail⟩

/-- `ML_Logger.log_line`: join the arguments, append line + end to the
print buffer, and flush the buffer when asked to or when it exceeds the
configured size.  (The console echo of the non-silent case is a display
side channel.) -/
def log_line (clt : Collab) (st : LoggerState) (args : List String)
    (sep lineEnd : String) (fl : Bool) : MRes :=
  let line := String.intercalate sep args
  let st₁ := { st with print_buffer := st.print_buffer ++ (line ++ lineEnd) }
  if fl || st₁.print_buffer.length > st₁.print_buffer_size then
    print_flush clt st₁
  else ⟨st₁, Out.nil, none⟩

/-- The record `dict(_step=self.step, _timestamp=str(self.timestamp),
**self.data)`: `_step` and `_timestamp` first, then the accumulated
pairs in order.  A data key clashing with a keyword raises `TypeError`
(Python: multiple values for a keyword argument). -/
def recordDict (s : Option StepV) (ts : Option Nat) (data : List (String × Val)) :
    Except PyErr (List (String × RVal)) :=
  if data.any (fun p => p.1 == "_step" || p.1 == "_timestamp") then .error .typeError
  else .ok ([("_step", RVal.step s), ("_timestamp", RVal.text (tsStr ts))] ++
    data.map (fun p => (p.1, RVal.val p.2)))

/-- `ML_Logger.flush`: if the accumulator is non-empty, render it (with
the `_row_table` fallback), log the table as a line (which flushes the
print buffer), hand the serialized record to the collaborator, and clear
the accumulator and the silent-key set; always finish by flushing the
print buffer.  `'\n' + output` with `output = None` (every key silent)
raises `TypeError`. -/
def flush (clt : Collab) (st : LoggerState) (fileName : String) : MRes :=
  let fn := if fileName = "" then "metrics.pkl" else fileName
  if st.data.isEmpty then print_flush clt st
  else
    match renderStage st.data st.do_not_print_list with
    | .error e => ⟨st, Out.nil, some (.py e)⟩
    | .ok none => ⟨st, Out.nil, some (.py .typeError)⟩
    | .ok (some output) =>
      let r₁ := log_line clt st ["\n" ++ output] " " "\n" true
      match r₁.err with
      | some e => ⟨r₁.st, r₁.out, some e⟩
      | none =>
        match recordDict r₁.st.step r₁.st.timestamp r₁.st.data with
        | .error e => ⟨r₁.st, r₁.out, some (.py e)⟩
        | .ok recData =>
          if clt.logOk then
            let recEntry : Record := ⟨pathJoin r₁.st.pfx fn, false, recData⟩
            let st₂ := { r₁.st with data := [], do_not_print_list := [] }
            let r₂ := print_flush clt st₂
            ⟨r₂.st, r₁.out ++ (⟨[recEntry], []⟩ : Out) ++ r₂.out, r₂.err⟩
          else ⟨r₁.st, r₁.out, some .ioFail⟩

/-! ## Logging entry points -/

/-- The step gate shared by `log` and `log_keyvalue`:
`if self.step != step and step is not None: self.flush(); self.step =
step`.  The flush uses the old step and timestamp; the new step is
adopted only if the flush returns. -/
def stepGate (clt : Collab) (st : LoggerState) (step : Option StepV) : MRes :=
  if pyNeOptStep st.step step && step.isSome then
    let rF := flush clt st "metrics.pkl"
    if rF.err.isSome then rF
    else ⟨{ rF.st with step := step }, rF.out, none⟩
  else ⟨st, Out.nil, none⟩

/-- `ML_Logger.log`: step gate, set the timestamp, log the positional
arguments as a line, extend the silent-key set when `silent`, then fold
the keyword pairs into the accumulator with `logAccum`. -/
def logCall (clt : Collab) (st : LoggerState) (now : Nat) (args : List String)
    (step : Option StepV) (silent : Bool) (fl : Bool)
    (kvs : List (String × LVal)) : MRes :=
  let g := stepGate clt st step
  if g.err.isSome then g
  else
    let st₁ := { g.st with timestamp := some now }
    let rL := log_line clt st₁ args " " "\n" fl
    if rL.err.isSome then ⟨rL.st, g.out ++ rL.out, rL.err⟩
    else
      let st₂ := if silent then
          { rL.st with do_not_print_list :=
              (dnpInsertMany rL.st.do_not_print_list (kvs.map (fun kv => kv.1))) }
        else rL.st
      let st₃ := { st₂ with data :=
          (kvs.foldl (fun d kv => logAccum d kv.1 (unwrapLV kv.2)) st₂.data) }
      ⟨st₃, g.out ++ rL.out, none⟩

/-- `ML_Logger.log_keyvalue`: step gate, set the timestamp, extend the
silent-key set when `silent`, flush when no step was supplied, no step
is current, and the key is already present, then record the pair with
`logAccumKV`. -/
def log_keyvalue (clt : Collab) (st : LoggerState) (now : Nat) (key : String)
    (value : LVal) (step : Option StepV) (silent : Bool) : MRes :=
  let g := stepGate clt st step
  if g.err.isSome then g
  else
    let st₁ := { g.st with timestamp := some now }
    let st₂ := if silent then
        { st₁ with do_not_print_list := dnpInsert st₁.do_not_print_list key }
      else st₁
    let afterImplicit : MRes :=
      if step.isNone && st₂.step.isNone && odContains st₂.data key then
        let rF := flush clt st₂ "metrics.pkl"
        ⟨rF.st, g.out ++ rF.out, rF.err⟩
      else ⟨st₂, g.out, none⟩
    if afterImplicit.err.isSome then afterImplicit
    else
      ⟨{ afterImplicit.st with data :=
          (logAccumKV afterImplicit.st.data key (unwrapLV value)) },
        afterImplicit.out, none⟩

/-! ## Helper lemmas -/

@[simp] theorem out_app_records (a b : Out) : (a ++ b).records = a.records ++ b.records := rfl

@[simp] theorem out_app_texts (a b : Out) : (a ++ b).texts = a.texts ++ b.texts := rfl

theorem out_app_def (a b : Out) : a ++ b = ⟨a.records ++ b.records, a.texts ++ b.texts⟩ := rfl

theorem intercalate_single (s a : String) : String.intercalate s [a] = a := rfl

theorem append_newline_ne_empty (s a : String) : s ++ (a ++ "\n") ≠ "" := by
  intro h
  have h2 : (s ++ (a ++ "\n")).length = 0 := by rw [h]; rfl
  simp [String.length_append] at h2
  exact absurd h2.2.2 (by decide)

theorem print_flush_records (clt : Collab) (st : LoggerState) :
    (print_flush clt st).out.records = [] := by
  unfold print_flush
  dsimp only
  split <;> try split
  all_goals rfl

theorem print_flush_data (clt : Collab) (st : LoggerState) :
    (print_flush clt st).st.data = st.data := by
  unfold print_flush
  dsimp only
  split <;> try split
  all_goals rfl

theorem log_line_textOk (clt : Collab) (st : LoggerState) (a : String)
    (ht : clt.textOk = true) :
    log_line clt st [a] " " "\n" true =
      ⟨{ st with print_buffer := "" },
       ⟨[], [(pathJoin st.pfx "text.log", st.print_buffer ++ (a ++ "\n"))]⟩, none⟩ := by
  unfold log_line print_flush
  rw [intercalate_single]
  simp only [Bool.true_or, if_true, ht]
  rw [if_neg (append_newline_ne_empty st.print_buffer a)]

theorem log_line_err (clt : Collab) (st : LoggerState) (a : String) :
    (log_line clt st [a] " " "\n" true).err =
      (if clt.textOk then none else some Err.ioFail) := by
  unfold log_line print_flush
  rw [intercalate_single]
  simp only [Bool.true_or, if_true]
  rw [if_neg (append_newline_ne_empty st.print_buffer a)]
  split <;> rfl

theorem flush_of_data_nil (clt : Collab) (st : LoggerState) (fn : String)
    (h : st.data = []) : flush clt st fn = print_flush clt st := by
  unfold flush
  rw [h]
  rfl

theorem flush_shape (clt : Collab) (st : LoggerState) (fn output : String)
    (recData : List (String × RVal))
    (hne : st.data.isEmpty = false)
    (hr : renderStage st.data st.do_not_print_list = Except.ok (some output))
    (hd : recordDict st.step st.timestamp st.data = Except.ok recData)
    (ht : clt.textOk = true) (hl : clt.logOk = true) :
    flush clt st fn =
      ⟨{ st with print_buffer := "", data := [], do_not_print_list := [] },
       ⟨[⟨pathJoin st.pfx (if fn = "" then "metrics.pkl" else fn), false, recData⟩],
        [(pathJoin st.pfx "text.log", st.print_buffer ++ (("\n" ++ output) ++ "\n"))]⟩,
       none⟩ := by
  unfold flush
  rw [hne]
  simp only [Bool.false_eq_true, if_false]
  rw [hr]
  dsimp only
  rw [log_line_textOk clt st ("\n" ++ output) ht]
  dsimp only
  rw [hd]
  dsimp only
  rw [hl]
  simp only [if_true]
  unfold print_flush
  dsimp only
  rw [if_pos rfl]
  simp only [out_app_def, Out.nil, List.append_nil, List.nil_append]

theorem flush_err_none_parts (clt : Collab) (st : LoggerState) (fn : String)
    (hne : st.data.isEmpty = false)
    (h : (flush clt st fn).err = none) :
    ∃ output recData,
      renderStage st.data st.do_not_print_list = Except.ok (some output) ∧
      recordDict st.step st.timestamp st.data = Except.ok recData ∧
      clt.textOk = true ∧ clt.logOk = true := by
  unfold flush at h
  rw [hne] at h
  simp only [Bool.false_eq_true, if_false] at h
  rcases hr : renderStage st.data st.do_not_print_list with e | o
  · rw [hr] at h; simp at h
  · rcases o with _ | output
    · rw [hr] at h; simp at h
    · rw [hr] at h
      dsimp only at h
      by_cases htk : clt.textOk = true
      · rw [log_line_textOk clt st ("\n" ++ output) htk] at h
        dsimp only at h
        rcases hdc : recordDict st.step st.timestamp st.data with e | recData
        · rw [hdc] at h; simp at h
        · rw [hdc] at h
          dsimp only at h
          by_cases hlk : clt.logOk = true
          · exact ⟨output, recData, rfl, rfl, htk, hlk⟩
          · simp [hlk] at h
      · have he := log_line_err clt st ("\n" ++ output)
        rw [if_neg htk] at he
        rw [he] at h
        simp at h

theorem flush_ok_data_nil (clt : Collab) (st : LoggerState) (fn : String)
    (h : (flush clt st fn).err = none) :
    (flush clt st fn).st.data = [] := by
  by_cases hne : st.data.isEmpty = true
  · have hlist : st.data = [] := by
      cases hv : st.data
      · rfl
      · rw [hv] at hne; simp [List.isEmpty] at hne
    rw [flush_of_data_nil clt st fn hlist, print_flush_data, hlist]
  · simp only [Bool.not_eq_true] at hne
    obtain ⟨output, recData, hr, hdc, htk, hlk⟩ := flush_err_none_parts clt st fn hne h
    rw [flush_shape clt st fn output recData hne hr hdc htk hlk]

theorem flush_records_of_data_nil (clt : Collab) (st : LoggerState) (fn : String)
    (h : st.data = []) : (flush clt st fn).out.records = [] := by
  rw [flush_of_data_nil clt st fn h, print_flush_records]

theorem isOkSome_exists {e : Except PyErr (Option String)}
    (h : isOkSome e = true) : ∃ s, e = Except.ok (some s) := by
  cases e with
  | error e => simp [isOkSome] at h
  | ok o =>
    cases o with
    | none => simp [isOkSome] at h
    | some s => exact ⟨s, rfl⟩

theorem recordDict_fresh (s : Option StepV) (ts : Option Nat)
    (data : List (String × Val))
    (hfresh : data.any (fun p => p.1 == "_step" || p.1 == "_timestamp") = false) :
    recordDict s ts data = Except.ok
      ([("_step", RVal.step s), ("_timestamp", RVal.text (tsStr ts))] ++
        data.map (fun p => (p.1, RVal.val p.2))) := by
  unfold recordDict
  rw [hfresh]
  rfl

theorem odContains_ne_nil (d : List (String × Val)) (k : String)
    (h : odContains d k = true) : d.isEmpty = false := by
  cases d with
  | nil => simp [odContains] at h
  | cons p ps => rfl

theorem log_line_general (clt : Collab) (st : LoggerState) (args : List String)
    (sep lineEnd : String) (fl : Bool) :
    (log_line clt st args sep lineEnd fl).st.step = st.step ∧
    (log_line clt st args sep lineEnd fl).st.data = st.data ∧
    (log_line clt st args sep lineEnd fl).st.do_not_print_list = st.do_not_print_list ∧
    (log_line clt st args sep lineEnd fl).st.timestamp = st.timestamp ∧
    (log_line clt st args sep lineEnd fl).st.pfx = st.pfx ∧
    (log_line clt st args sep lineEnd fl).out.records = [] := by
  unfold log_line print_flush
  dsimp only
  split <;> try split
  all_goals try split
  all_goals exact ⟨rfl, rfl, rfl, rfl, rfl, rfl⟩

theorem log_line_st_step (clt : Collab) (st : LoggerState) (args : List String)
    (sep lineEnd : String) (fl : Bool) :
    (log_line clt st args sep lineEnd fl).st.step = st.step :=
  (log_line_general clt st args sep lineEnd fl).1

theorem log_line_st_data (clt : Collab) (st : LoggerState) (args : List String)
    (sep lineEnd : String) (fl : Bool) :
    (log_line clt st args sep lineEnd fl).st.data = st.data :=
  (log_line_general clt st args sep lineEnd fl).2.1

theorem log_line_st_dnp (clt : Collab) (st : LoggerState) (args : List String)
    (sep lineEnd : String) (fl : Bool) :
    (log_line clt st args sep lineEnd fl).st.do_not_print_list = st.do_not_print_list :=
  (log_line_general clt st args sep lineEnd fl).2.2.1

theorem log_line_records (clt : Collab) (st : LoggerState) (args : List String)
    (sep lineEnd : String) (fl : Bool) :
    (log_line clt st args sep lineEnd fl).out.records = [] :=
  (log_line_general clt st args sep lineEnd fl).2.2.2.2.2

theorem log_line_err_none (clt : Collab) (ht : clt.textOk = true)
    (st : LoggerState) (args : List String)
    (sep lineEnd : String) (fl : Bool) :
    (log_line clt st args sep lineEnd fl).err = none := by
  unfold log_line print_flush
  dsimp only
  split <;> try split
  all_goals try split
  all_goals first
  | rfl
  | (next h => exact absurd ht h)

theorem print_flush_textOk (clt : Collab) (st : LoggerState)
    (ht : clt.textOk = true) :
    print_flush clt st =
      ⟨{ st with print_buffer := "" },
       ⟨[], if st.print_buffer = "" then []
            else [(pathJoin st.pfx "text.log", st.print_buffer)]⟩,
       none⟩ := by
  unfold print_flush
  dsimp only
  rw [ht]
  split <;> rfl

theorem flush_shape_logFail (clt : Collab) (st : LoggerState) (fn output : String)
    (recData : List (String × RVal))
    (hne : st.data.isEmpty = false)
    (hr : renderStage st.data st.do_not_print_list = Except.ok (some output))
    (hd : recordDict st.step st.timestamp st.data = Except.ok recData)
    (ht : clt.textOk = true) (hl : clt.logOk = false) :
    flush clt st fn =
      ⟨{ st with print_buffer := "" },
       ⟨[], [(pathJoin st.pfx "text.log", st.print_buffer ++ (("\n" ++ output) ++ "\n"))]⟩,
       some Err.ioFail⟩ := by
  unfold flush
  rw [hne]
  simp only [Bool.false_eq_true, if_false]
  rw [hr]
  dsimp only
  rw [log_line_textOk clt st ("\n" ++ output) ht]
  dsimp only
  rw [hd]
  dsimp only
  rw [hl]
  simp only [Bool.false_eq_true, if_false]

theorem logCall_after_gate (clt : Collab) (st : LoggerState) (now : Nat)
    (args : List String) (s : StepV) (sil fl : Bool)
    (kvs : List (String × LVal))
    (ht : clt.textOk = true)
    (hgate : pyNeOptStep st.step (some s) = true)
    (hf : (flush clt st "metrics.pkl").err = none) :
    (logCall clt st now args (some s) sil fl kvs).st.step = some s ∧
    (logCall clt st now args (some s) sil fl kvs).out.records =
      (flush clt st "metrics.pkl").out.records ∧
    (logCall clt st now args (some s) sil fl kvs).st.data =
      kvs.foldl (fun d kv => logAccum d kv.1 (unwrapLV kv.2))
        (flush clt st "metrics.pkl").st.data := by
  unfold logCall stepGate
  simp only [hgate, Option.isSome_some, Bool.true_and, eq_self_iff_true, if_true]
  simp only [hf, Option.isSome_none, Bool.false_eq_true, if_false]
  simp only [log_line_err_none clt ht, Option.isSome_none, Bool.false_eq_true,
    if_false]
  cases sil
  all_goals
    simp only [Bool.false_eq_true, if_false, if_true]
  all_goals
    refine ⟨?_, ?_, ?_⟩
  all_goals
    simp only [log_line_st_step, log_line_st_data, log_line_st_dnp,
      log_line_records, out_app_records, List.append_nil]

theorem logCall_no_step (clt : Collab) (st : LoggerState) (now : Nat)
    (args : List String) (sil fl : Bool) (kvs : List (String × LVal)) :
    (logCall clt st now args none sil fl kvs).out.records = [] ∧
    (logCall clt st now args none sil fl kvs).st.step = st.step := by
  unfold logCall stepGate
  simp only [Option.isSome_none, Bool.and_false, Bool.false_eq_true, if_false]
  rcases hrl : (log_line clt { st with timestamp := some now } args " " "\n" fl).err
    with _ | e
  all_goals
    simp only [hrl, Option.isSome_none, Option.isSome_some, Bool.false_eq_true,
      if_false, if_true]
  all_goals try dsimp only
  · constructor
    · simp only [out_app_records, log_line_records]
      rfl
    · cases sil
      all_goals simp only [Bool.false_eq_true, if_false, if_true]
      all_goals simp only [log_line_st_step]
      all_goals rfl
  · constructor
    · simp only [out_app_records, log_line_records]
      rfl
    · rw [log_line_st_step]

/-! ## Claim theorems -/

/-- C9: for every Colored Value, the length query (`Color.__len__`)
returns the length of the un-formatted stringified underlying value
(`len(str(self.value))`), and is independent of the color tag and of the
formatter that rendering applies — so it is unaffected by any terminal
color control sequence rendering would add. -/
theorem C9_color_len (i j : Nat) (v : Val) (c d : Option String)
    (f g : Val → Val) :
    ColorObj.pyLen ⟨i, v, c, f⟩ = (pyStr v).length ∧
    ColorObj.pyLen ⟨i, v, c, f⟩ = ColorObj.pyLen ⟨j, v, d, g⟩ :=
  ⟨rfl, rfl⟩

/-- C1 (code bug): recording the same key three times within one
accumulation window.  The first record stores the value directly and the
second produces `[first, second]`, as claimed; but the third produces the
*nested* list `[[first, second], third]` rather than appending, because
the source tests `type(self.data) is list` — the `OrderedDict` itself,
never a `list` — so the append branch is dead.  Both entry points
(`log` keyword arguments and `log_keyvalue`) misbehave the same way. -/
theorem C1_third_record_nests :
    (let clt : Collab := ⟨true, true⟩
     let r₁ := logCall clt (initState "" 2048) 1 []
       (some (StepV.int 0)) false true [("a", LVal.plain (Val.num 1))]
     let r₂ := logCall clt r₁.st 2 []
       (some (StepV.int 0)) false true [("a", LVal.plain (Val.num 2))]
     let r₃ := logCall clt r₂.st 3 []
       (some (StepV.int 0)) false true [("a", LVal.plain (Val.num 3))]
     r₁.st.data = [("a", Val.num 1)] ∧
     r₂.st.data = [("a", Val.list [Val.num 1, Val.num 2])] ∧
     r₃.st.data = [("a", Val.list [Val.list [Val.num 1, Val.num 2], Val.num 3])]) ∧
    (let clt : Collab := ⟨true, true⟩
     let k₁ := log_keyvalue clt (initState "" 2048) 1 "a"
       (LVal.plain (Val.num 1)) (some (StepV.int 0)) false
     let k₂ := log_keyvalue clt k₁.st 2 "a"
       (LVal.plain (Val.num 2)) (some (StepV.int 0)) false
     let k₃ := log_keyvalue clt k₂.st 3 "a"
       (LVal.plain (Val.num 3)) (some (StepV.int 0)) false
     k₃.st.data = [("a", Val.list [Val.list [Val.num 1, Val.num 2], Val.num 3])]) :=
  ⟨⟨rfl, rfl, rfl⟩, rfl⟩

/-- C2 (counterexample): an accumulator holding a text string where the
float format token applies.  `_tabular` raises `ValueError`, the
`except` block falls back to `_row_table` — but `_row_table` applies the
same `".3f"` specifier and raises `ValueError` too, outside any
`try`, so the error propagates to `flush`'s caller instead of the
multi-row layout being emitted. -/
theorem C2_counterexample :
    (flush ⟨true, true⟩
        { initState "" 2048 with data := [("a", Val.str "hello")] }
        "metrics.pkl").err = some (Err.py PyErr.valueError) := rfl

/-- C4 (counterexample): with no step ever supplied, logging the key
`a` twice through the keyword-argument entry point `log` does *not*
flush: no record is handed to the collaborator and the key accumulates
to the two-element list `[1, 2]` instead of restarting as a fresh
scalar.  (Only `log_keyvalue` has the repeated-key flush.) -/
theorem C4_counterexample :
    (let clt : Collab := ⟨true, true⟩
     let r₁ := logCall clt (initState "" 2048) 1 [] none false true
       [("a", LVal.plain (Val.num 1))]
     let r₂ := logCall clt r₁.st 2 [] none false true
       [("a", LVal.plain (Val.num 2))]
     r₂.out.records = [] ∧
     r₂.st.data = [("a", Val.list [Val.num 1, Val.num 2])]) :=
  ⟨rfl, rfl⟩

/-- C2 (amended): when the single-row renderer `_tabular` fails, the
failure is caught (and printed as a diagnostic) and the multi-row
fallback `_row_table` is attempted; when the fallback itself renders —
e.g. when the failure came from a list-valued key — flush raises no
error and the emitted table text is the fallback's multi-row layout.
(A value the fallback's numeric formatting also rejects, such as a text
string, raises past `flush`: see the counterexample.) -/
theorem C2_render_fallback (clt : Collab) (st : LoggerState) (fn : String)
    (e : PyErr) (output : String)
    (hne : st.data.isEmpty = false)
    (h₁ : tabularStr st.data st.do_not_print_list = Except.error e)
    (h₂ : rowTableStr st.data st.do_not_print_list = Except.ok (some output))
    (hfresh : st.data.any (fun p => p.1 == "_step" || p.1 == "_timestamp") = false)
    (ht : clt.textOk = true) (hl : clt.logOk = true) :
    (flush clt st fn).err = none ∧
    (flush clt st fn).out.texts =
      [(pathJoin st.pfx "text.log", st.print_buffer ++ (("\n" ++ output) ++ "\n"))] ∧
    (flush clt st fn).out.records.length = 1 := by
  have hr : renderStage st.data st.do_not_print_list = Except.ok (some output) := by
    unfold renderStage
    rw [h₁]
    exact h₂
  rw [flush_shape clt st fn output _ hne hr (recordDict_fresh _ _ _ hfresh) ht hl]
  exact ⟨rfl, rfl, rfl⟩

/-- C3: the step gate.  The concrete sequence `log(step=0, a=1);
log(step=1, b=2); flush()` hands over exactly two records, the first
containing only the key `a` (plus `_step = 0` and the timestamp of the
first call), the second only `b`; in general a call whose explicit step
differs (in the Python `!=` sense) from the current step first flushes
all previously accumulated data, adopts the new step, and starts a fresh
accumulation from an empty mapping; and a call with no step never
triggers the gate: it hands over no record and leaves the current step
unchanged. -/
theorem C3_step_gate :
    (let clt : Collab := ⟨true, true⟩
     let r₁ := logCall clt (initState "" 2048) 1 []
       (some (StepV.int 0)) false true [("a", LVal.plain (Val.num 1))]
     let r₂ := logCall clt r₁.st 2 []
       (some (StepV.int 1)) false true [("b", LVal.plain (Val.num 2))]
     let r₃ := flush clt r₂.st "metrics.pkl"
     r₁.out.records = [] ∧
     r₂.out.records = [⟨"metrics.pkl", false,
       [("_step", RVal.step (some (StepV.int 0))), ("_timestamp", RVal.text "1"),
        ("a", RVal.val (Val.num 1))]⟩] ∧
     r₃.out.records = [⟨"metrics.pkl", false,
       [("_step", RVal.step (some (StepV.int 1))), ("_timestamp", RVal.text "2"),
        ("b", RVal.val (Val.num 2))]⟩]) ∧
    (∀ (clt : Collab) (st : LoggerState) (now : Nat) (args : List String)
       (s : StepV) (sil fl : Bool) (kvs : List (String × LVal)),
      clt.textOk = true →
      pyNeOptStep st.step (some s) = true →
      (flush clt st "metrics.pkl").err = none →
      (logCall clt st now args (some s) sil fl kvs).st.step = some s ∧
      (logCall clt st now args (some s) sil fl kvs).out.records =
        (flush clt st "metrics.pkl").out.records ∧
      (logCall clt st now args (some s) sil fl kvs).st.data =
        kvs.foldl (fun d kv => logAccum d kv.1 (unwrapLV kv.2)) []) ∧
    (∀ (clt : Collab) (st : LoggerState) (now : Nat) (args : List String)
       (sil fl : Bool) (kvs : List (String × LVal)),
      (logCall clt st now args none sil fl kvs).out.records = [] ∧
      (logCall clt st now args none sil fl kvs).st.step = st.step) := by
  refine ⟨⟨rfl, rfl, rfl⟩, ?_, ?_⟩
  · intro clt st now args s sil fl kvs ht hgate hf
    obtain ⟨h1, h2, h3⟩ := logCall_after_gate clt st now args s sil fl kvs ht hgate hf
    refine ⟨h1, h2, ?_⟩
    rw [h3, flush_ok_data_nil clt st "metrics.pkl" hf]
  · intro clt st now args sil fl kvs
    exact logCall_no_step clt st now args sil fl kvs

/-- C4 (amended): the flush-before-restarting-a-repeated-key behaviour
when no step was supplied and none is current belongs to the single-pair
entry point `log_keyvalue` only: there, a key already present triggers a
flush of the accumulated data (one record handed over) before the new
value is recorded, and the key restarts as a single scalar.  The
keyword-argument entry point `log` accumulates `[old, new]` without
flushing (see the counterexample). -/
theorem C4_keyvalue_repeat_flush (clt : Collab) (st : LoggerState) (now : Nat)
    (key : String) (v : LVal)
    (hstep : st.step = none)
    (hin : odContains st.data key = true)
    (hr : isOkSome (renderStage st.data st.do_not_print_list) = true)
    (hfresh : st.data.any (fun p => p.1 == "_step" || p.1 == "_timestamp") = false)
    (ht : clt.textOk = true) (hl : clt.logOk = true) :
    (log_keyvalue clt st now key v none false).st.data = [(key, unwrapLV v)] ∧
    (log_keyvalue clt st now key v none false).out.records.length = 1 ∧
    (log_keyvalue clt st now key v none false).err = none := by
  obtain ⟨output, hro⟩ := isOkSome_exists hr
  have hne : st.data.isEmpty = false := odContains_ne_nil st.data key hin
  have hfl := flush_shape clt { st with step := none, timestamp := some now }
    "metrics.pkl" output _ hne hro
    (recordDict_fresh none (some now) st.data hfresh) ht hl
  unfold log_keyvalue stepGate
  simp only [Option.isSome_none, Bool.and_false, Bool.false_eq_true, if_false]
  simp only [hstep]
  simp only [Option.isNone_none, Bool.true_and, hin, eq_self_iff_true, if_true]
  rw [hfl]
  exact ⟨rfl, rfl, rfl⟩

/-- C5: a key logged with the silent flag is excluded from the list of
keys either renderer displays (`visibleKeys` drives both the content
rows of the single-row table and the header cells of the multi-row
table), yet its key/value pair is present in the serialized record
handed to the storage collaborator at flush. -/
theorem C5_silent_keys (entries : List (String × Val)) (dnp : List String)
    (k : String) (hk : k ∈ dnp) :
    k ∉ visibleKeys entries dnp ∧
    (∀ (clt : Collab) (st : LoggerState) (fn : String) (v : Val),
      st.data = entries → st.do_not_print_list = dnp →
      (k, v) ∈ entries →
      st.data.isEmpty = false →
      isOkSome (renderStage st.data st.do_not_print_list) = true →
      st.data.any (fun p => p.1 == "_step" || p.1 == "_timestamp") = false →
      clt.textOk = true → clt.logOk = true →
      ∃ r, (flush clt st fn).out.records = [r] ∧ (k, RVal.val v) ∈ r.data) := by
  constructor
  · intro hmem
    obtain ⟨p, hp, hpe⟩ := List.mem_map.mp hmem
    have h2 := (List.mem_filter.mp hp).2
    rw [hpe] at h2
    simp at h2
    exact absurd hk h2
  · intro clt st fn v hdata hdnp hmem hne hr hfresh ht hl
    obtain ⟨output, hro⟩ := isOkSome_exists hr
    rw [flush_shape clt st fn output _ hne hro (recordDict_fresh _ _ _ hfresh) ht hl]
    refine ⟨_, rfl, ?_⟩
    apply List.mem_append_right
    apply List.mem_map.mpr
    refine ⟨(k, v), ?_, rfl⟩
    rw [hdata]
    exact hmem

/-- C6: flushing a non-empty accumulator (whose keys avoid the reserved
`_step`/`_timestamp` names) hands the storage collaborator exactly one
record, as an *appended* record (`overwrite = false`; the collaborator
itself is modelled from the spec), containing exactly the accumulated
key/value pairs plus the current step under `_step` and the stringified
timestamp under `_timestamp`; a single key logged once then flushed
yields a record with exactly that pair plus `_step` and `_timestamp`. -/
theorem C6_flush_record (clt : Collab) (st : LoggerState) (fn : String)
    (hne : st.data.isEmpty = false)
    (hr : isOkSome (renderStage st.data st.do_not_print_list) = true)
    (hfresh : st.data.any (fun p => p.1 == "_step" || p.1 == "_timestamp") = false)
    (ht : clt.textOk = true) (hl : clt.logOk = true) :
    (flush clt st fn).out.records =
      [⟨pathJoin st.pfx (if fn = "" then "metrics.pkl" else fn), false,
        [("_step", RVal.step st.step),
         ("_timestamp", RVal.text (tsStr st.timestamp))] ++
          st.data.map (fun p => (p.1, RVal.val p.2))⟩] ∧
    (flush clt st fn).err = none := by
  obtain ⟨output, hro⟩ := isOkSome_exists hr
  rw [flush_shape clt st fn output _ hne hro (recordDict_fresh _ _ _ hfresh) ht hl]
  exact ⟨rfl, rfl⟩

/-- C7: flushing an empty accumulator serializes no record and renders
no table — its whole effect is flushing the print buffer: pending
buffered text is forwarded as one text write and the buffer is cleared
(nothing is written when the buffer is empty).  Consequently a second
flush immediately after a successful flush appends no record. -/
theorem C7_empty_flush (clt : Collab) (st : LoggerState) (fn : String)
    (hd : st.data = []) (ht : clt.textOk = true) :
    (flush clt st fn).out.records = [] ∧
    (flush clt st fn).err = none ∧
    (flush clt st fn).st.print_buffer = "" ∧
    (flush clt st fn).out.texts =
      (if st.print_buffer = "" then []
       else [(pathJoin st.pfx "text.log", st.print_buffer)]) ∧
    (∀ st₂ : LoggerState, (flush clt st₂ fn).err = none →
      (flush clt (flush clt st₂ fn).st fn).out.records = []) := by
  have hpf := print_flush_textOk clt st ht
  refine ⟨flush_records_of_data_nil clt st fn hd, ?_, ?_, ?_, ?_⟩
  · rw [flush_of_data_nil clt st fn hd, hpf]
  · rw [flush_of_data_nil clt st fn hd, hpf]
  · rw [flush_of_data_nil clt st fn hd, hpf]
  · intro st₂ h₂
    exact flush_records_of_data_nil clt _ fn (flush_ok_data_nil clt st₂ fn h₂)

/-- C8 (amended): the step argument is *not* unwrapped before the gate
comparison: Python's `!=` compares a `Color` wrapper by object identity,
so a wrapped step is never equal to an integer current step
(`pyEqStep` is false between an integer and a wrapper); supplying a
non-`None` `Color` step while an integer step is current therefore
triggers the gate flush, and the wrapper object itself — not its
underlying scalar — becomes the current step. -/
theorem C8_step_not_unwrapped (clt : Collab) (st : LoggerState) (now : Nat)
    (args : List String) (c : ColorObj) (m : Int) (sil fl : Bool)
    (kvs : List (String × LVal))
    (hs : st.step = some (StepV.int m))
    (ht : clt.textOk = true)
    (hf : (flush clt st "metrics.pkl").err = none) :
    pyEqStep (StepV.int m) (StepV.color c) = false ∧
    (logCall clt st now args (some (StepV.color c)) sil fl kvs).st.step =
      some (StepV.color c) ∧
    (logCall clt st now args (some (StepV.color c)) sil fl kvs).out.records =
      (flush clt st "metrics.pkl").out.records := by
  have hgate : pyNeOptStep st.step (some (StepV.color c)) = true := by
    rw [hs]
    rfl
  obtain ⟨h1, h2, h3⟩ :=
    logCall_after_gate clt st now args (StepV.color c) sil fl kvs ht hgate hf
  exact ⟨rfl, h1, h2⟩

/-- C10: when the storage collaborator's record write fails during a
flush of a non-empty accumulator, the failure propagates to the caller
and the accumulator's key/value mapping and silent-key set keep their
pre-flush contents; they are cleared (only) when the record handoff
succeeds. -/
theorem C10_failed_write (clt : Collab) (st : LoggerState) (fn : String)
    (hne : st.data.isEmpty = false)
    (hr : isOkSome (renderStage st.data st.do_not_print_list) = true)
    (hfresh : st.data.any (fun p => p.1 == "_step" || p.1 == "_timestamp") = false)
    (ht : clt.textOk = true) (hl : clt.logOk = false) :
    (flush clt st fn).err = some Err.ioFail ∧
    (flush clt st fn).st.data = st.data ∧
    (flush clt st fn).st.do_not_print_list = st.do_not_print_list ∧
    (∀ clt₂ : Collab, clt₂.textOk = true → clt₂.logOk = true →
      (flush clt₂ st fn).st.data = [] ∧
      (flush clt₂ st fn).st.do_not_print_list = []) := by
  obtain ⟨output, hro⟩ := isOkSome_exists hr
  rw [flush_shape_logFail clt st fn output _ hne hro
    (recordDict_fresh _ _ _ hfresh) ht hl]
  refine ⟨rfl, rfl, rfl, ?_⟩
  intro clt₂ ht₂ hl₂
  rw [flush_shape clt₂ st fn output _ hne hro
    (recordDict_fresh _ _ _ hfresh) ht₂ hl₂]
  exact ⟨rfl, rfl⟩

/-- C8 (counterexample): a logging call whose step is a `Color` wrapper
with underlying value equal to the current integer step.  The step is
*not* unwrapped: Python compares a `Color` by object identity, so the
wrapped step is unequal to the current step, a flush *is* triggered
(one record is handed over), and the adopted current step is the
wrapper object, not the underlying scalar. -/
theorem C8_counterexample :
    (let st := { initState "" 2048 with step := some (StepV.int 0), timestamp := some 1, data := [("x", Val.num 5)] }
     let r := logCall ⟨true, true⟩ st 2 []
       (some (StepV.color (mkColor 0 (Val.num 0) none))) false true []
     r.out.records.length = 1 ∧
     r.st.step = some (StepV.color (mkColor 0 (Val.num 0) none)) ∧
     r.st.step ≠ some (StepV.int 0)) := by
  refine ⟨rfl, rfl, ?_⟩
  intro h
  rw [show (let st := { initState "" 2048 with step := some (StepV.int 0), timestamp := some 1, data := [("x", Val.num 5)] }
      let r := logCall ⟨true, true⟩ st 2 []
        (some (StepV.color (mkColor 0 (Val.num 0) none))) false true []
      r.st.step) = some (StepV.color (mkColor 0 (Val.num 0) none)) from rfl] at h
  exact Option.noConfusion h (fun h2 => StepV.noConfusion h2)

/-! ## Witnesses -/

/-- Witness for `C2_render_fallback`: a list-valued key makes the
single-row renderer raise; the fallback renders and flush succeeds with
the multi-row layout. -/
theorem C2_render_fallback_witness :
    (flush ⟨true, true⟩ { initState "" 2048 with data := [("a", Val.list [Val.num 1, Val.num 2])] } "metrics.pkl").err = none ∧
    (flush ⟨true, true⟩ { initState "" 2048 with data := [("a", Val.list [Val.num 1, Val.num 2])] } "metrics.pkl").out.texts =
      [("text.log", "\n  a  \n─────\n1.000\n2.000\n\n")] ∧
    (flush ⟨true, true⟩ { initState "" 2048 with data := [("a", Val.list [Val.num 1, Val.num 2])] } "metrics.pkl").out.records.length = 1 :=
  C2_render_fallback ⟨true, true⟩
    { initState "" 2048 with data := [("a", Val.list [Val.num 1, Val.num 2])] }
    "metrics.pkl" PyErr.typeError "  a  \n─────\n1.000\n2.000\n"
    (by rfl) (by rfl) (by rfl) (by rfl) (by rfl) (by rfl)

/-- Witness for `C3_step_gate`: the step-change branch at a concrete
state, and the no-step branch at a concrete state. -/
theorem C3_step_gate_witness :
    ((logCall ⟨true, true⟩ { initState "" 2048 with step := some (StepV.int 0), timestamp := some 1, data := [("a", Val.num 1)] } 2 [] (some (StepV.int 1)) false true [("b", LVal.plain (Val.num 2))]).st.step = some (StepV.int 1) ∧
     (logCall ⟨true, true⟩ { initState "" 2048 with step := some (StepV.int 0), timestamp := some 1, data := [("a", Val.num 1)] } 2 [] (some (StepV.int 1)) false true [("b", LVal.plain (Val.num 2))]).out.records =
       (flush ⟨true, true⟩ { initState "" 2048 with step := some (StepV.int 0), timestamp := some 1, data := [("a", Val.num 1)] } "metrics.pkl").out.records ∧
     (logCall ⟨true, true⟩ { initState "" 2048 with step := some (StepV.int 0), timestamp := some 1, data := [("a", Val.num 1)] } 2 [] (some (StepV.int 1)) false true [("b", LVal.plain (Val.num 2))]).st.data = [("b", Val.num 2)]) ∧
    ((logCall ⟨true, true⟩ (initState "" 2048) 5 [] none false true [("c", LVal.plain (Val.num 3))]).out.records = [] ∧
     (logCall ⟨true, true⟩ (initState "" 2048) 5 [] none false true [("c", LVal.plain (Val.num 3))]).st.step = none) := by
  constructor
  · have h := (C3_step_gate).2.1 ⟨true, true⟩
      { initState "" 2048 with step := some (StepV.int 0), timestamp := some 1, data := [("a", Val.num 1)] }
      2 [] (StepV.int 1) false true [("b", LVal.plain (Val.num 2))] (by rfl) (by rfl) (by rfl)
    exact ⟨h.1, h.2.1, h.2.2.trans rfl⟩
  · exact (C3_step_gate).2.2 ⟨true, true⟩ (initState "" 2048) 5 []
      false true [("c", LVal.plain (Val.num 3))]

/-- Witness for `C4_keyvalue_repeat_flush`: a present key, no step ever
supplied; `log_keyvalue` flushes one record and restarts the key as a
scalar. -/
theorem C4_keyvalue_repeat_flush_witness :
    (log_keyvalue ⟨true, true⟩ { initState "" 2048 with data := [("a", Val.num 7)] } 3 "a" (LVal.plain (Val.num 9)) none false).st.data = [("a", Val.num 9)] ∧
    (log_keyvalue ⟨true, true⟩ { initState "" 2048 with data := [("a", Val.num 7)] } 3 "a" (LVal.plain (Val.num 9)) none false).out.records.length = 1 ∧
    (log_keyvalue ⟨true, true⟩ { initState "" 2048 with data := [("a", Val.num 7)] } 3 "a" (LVal.plain (Val.num 9)) none false).err = none :=
  C4_keyvalue_repeat_flush ⟨true, true⟩
    { initState "" 2048 with data := [("a", Val.num 7)] }
    3 "a" (LVal.plain (Val.num 9)) (by rfl) (by rfl) (by rfl) (by rfl) (by rfl) (by rfl)

/-- Witness for `C5_silent_keys`: the silent key `secret` is not among
the displayed keys but its pair is inside the one record handed over. -/
theorem C5_silent_keys_witness :
    ("secret" ∉ visibleKeys [("a", Val.num 1), ("secret", Val.num 2)] ["secret"]) ∧
    (∃ r, (flush ⟨true, true⟩ { initState "" 2048 with step := some (StepV.int 0), timestamp := some 3, data := [("a", Val.num 1), ("secret", Val.num 2)], do_not_print_list := ["secret"] } "metrics.pkl").out.records = [r] ∧
      ("secret", RVal.val (Val.num 2)) ∈ r.data) := by
  have h := C5_silent_keys [("a", Val.num 1), ("secret", Val.num 2)] ["secret"]
    "secret" (List.mem_singleton.mpr rfl)
  refine ⟨h.1, ?_⟩
  exact h.2 ⟨true, true⟩
    { initState "" 2048 with step := some (StepV.int 0), timestamp := some 3, data := [("a", Val.num 1), ("secret", Val.num 2)], do_not_print_list := ["secret"] }
    "metrics.pkl" (Val.num 2) (by rfl) (by rfl)
    (List.mem_cons_of_mem _ (List.mem_singleton.mpr rfl)) (by rfl) (by rfl) (by rfl) (by rfl) (by rfl)

/-- Witness for `C6_flush_record`: one key logged once, then flushed:
the record holds exactly that pair plus `_step` and `_timestamp`, as an
append. -/
theorem C6_flush_record_witness :
    (flush ⟨true, true⟩ { initState "" 2048 with step := some (StepV.int 0), timestamp := some 5, data := [("a", Val.num 1)] } "metrics.pkl").out.records =
      [⟨"metrics.pkl", false,
        [("_step", RVal.step (some (StepV.int 0))), ("_timestamp", RVal.text "5"),
         ("a", RVal.val (Val.num 1))]⟩] ∧
    (flush ⟨true, true⟩ { initState "" 2048 with step := some (StepV.int 0), timestamp := some 5, data := [("a", Val.num 1)] } "metrics.pkl").err = none :=
  C6_flush_record ⟨true, true⟩
    { initState "" 2048 with step := some (StepV.int 0), timestamp := some 5, data := [("a", Val.num 1)] }
    "metrics.pkl" (by rfl) (by rfl) (by rfl) (by rfl) (by rfl)

/-- Witness for `C7_empty_flush`: empty accumulator with pending
buffered text; and a second flush after a successful one. -/
theorem C7_empty_flush_witness :
    (flush ⟨true, true⟩ { initState "" 2048 with print_buffer := "hey\n" } "metrics.pkl").out.records = [] ∧
    (flush ⟨true, true⟩ { initState "" 2048 with print_buffer := "hey\n" } "metrics.pkl").err = none ∧
    (flush ⟨true, true⟩ { initState "" 2048 with print_buffer := "hey\n" } "metrics.pkl").st.print_buffer = "" ∧
    (flush ⟨true, true⟩ { initState "" 2048 with print_buffer := "hey\n" } "metrics.pkl").out.texts = [("text.log", "hey\n")] ∧
    (flush ⟨true, true⟩ (flush ⟨true, true⟩ { initState "" 2048 with data := [("z", Val.num 4)] } "metrics.pkl").st "metrics.pkl").out.records = [] := by
  have h := C7_empty_flush ⟨true, true⟩
    { initState "" 2048 with print_buffer := "hey\n" } "metrics.pkl" (by rfl) (by rfl)
  exact ⟨h.1, h.2.1, h.2.2.1, h.2.2.2.1.trans rfl,
    h.2.2.2.2 { initState "" 2048 with data := [("z", Val.num 4)] } rfl⟩

/-- Witness for `C8_step_not_unwrapped`: current step `0`, supplied step
a `Color` wrapping `0`: the gate fires and the wrapper becomes the
current step. -/
theorem C8_step_not_unwrapped_witness :
    pyEqStep (StepV.int 0) (StepV.color (mkColor 7 (Val.num 0) none)) = false ∧
    (logCall ⟨true, true⟩ { initState "" 2048 with step := some (StepV.int 0), timestamp := some 1, data := [("x", Val.num 5)] } 2 [] (some (StepV.color (mkColor 7 (Val.num 0) none))) false true []).st.step =
      some (StepV.color (mkColor 7 (Val.num 0) none)) ∧
    (logCall ⟨true, true⟩ { initState "" 2048 with step := some (StepV.int 0), timestamp := some 1, data := [("x", Val.num 5)] } 2 [] (some (StepV.color (mkColor 7 (Val.num 0) none))) false true []).out.records =
      (flush ⟨true, true⟩ { initState "" 2048 with step := some (StepV.int 0), timestamp := some 1, data := [("x", Val.num 5)] } "metrics.pkl").out.records :=
  C8_step_not_unwrapped ⟨true, true⟩
    { initState "" 2048 with step := some (StepV.int 0), timestamp := some 1, data := [("x", Val.num 5)] }
    2 [] (mkColor 7 (Val.num 0) none) 0 false true [] (by rfl) (by rfl) (by rfl)

/-- Witness for `C10_failed_write`: with a failing record write the
error propagates and the accumulator and silent set survive; with a
working collaborator both are cleared. -/
theorem C10_failed_write_witness :
    (flush ⟨false, true⟩ { initState "" 2048 with step := some (StepV.int 0), timestamp := some 5, data := [("a", Val.num 1)], do_not_print_list := ["b"] } "metrics.pkl").err = some Err.ioFail ∧
    (flush ⟨false, true⟩ { initState "" 2048 with step := some (StepV.int 0), timestamp := some 5, data := [("a", Val.num 1)], do_not_print_list := ["b"] } "metrics.pkl").st.data = [("a", Val.num 1)] ∧
    (flush ⟨false, true⟩ { initState "" 2048 with step := some (StepV.int 0), timestamp := some 5, data := [("a", Val.num 1)], do_not_print_list := ["b"] } "metrics.pkl").st.do_not_print_list = ["b"] ∧
    (flush ⟨true, true⟩ { initState "" 2048 with step := some (StepV.int 0), timestamp := some 5, data := [("a", Val.num 1)], do_not_print_list := ["b"] } "metrics.pkl").st.data = [] ∧
    (flush ⟨true, true⟩ { initState "" 2048 with step := some (StepV.int 0), timestamp := some 5, data := [("a", Val.num 1)], do_not_print_list := ["b"] } "metrics.pkl").st.do_not_print_list = [] := by
  have h := C10_failed_write ⟨false, true⟩
    { initState "" 2048 with step := some (StepV.int 0), timestamp := some 5, data := [("a", Val.num 1)], do_not_print_list := ["b"] }
    "metrics.pkl" (by rfl) (by rfl) (by rfl) (by rfl) (by rfl)
  have h₂ := h.2.2.2 ⟨true, true⟩ (by rfl) (by rfl)
  exact ⟨h.1, h.2.1, h.2.2.1, h₂.1, h₂.2⟩

end MLogger
